import Mathlib

/-!
Verification of the V2X simulation scenario (src/V2X-Main.cc) against its
specification.

The scenario script itself is parameterization of an external discrete-event
simulation framework; the spec defines the CORE kernel (EventQueue, Medium,
NodeQueue) that the framework supplies.  The kernel components are therefore
modelled from the spec's contracts; the scenario-level behavior (ARP
pre-population, send scheduling, queue-disc installation, flow-monitor output,
receive callback) is embedded directly from the source.

Simulation times are rationals (seconds); IPv4 and MAC addresses, socket
handles and queue-disc handles are naturals.
-/

namespace V2X

/-! ## EventQueue -/

/-- Modelled from the spec: the kernel's `Event` record
`{scheduledTime, sequence (tie-break counter), action}`; the action is
represented by an opaque identifier. -/
structure Event where
  scheduledTime : ℚ
  sequence : ℕ
  actionId : ℕ
deriving DecidableEq, Repr

/-- The priority-structure key order on events: earlier `scheduledTime` first,
ties broken by the `sequence` counter (insertion order). -/
def eventLE (a b : Event) : Prop :=
  a.scheduledTime < b.scheduledTime ∨
    (a.scheduledTime = b.scheduledTime ∧ a.sequence ≤ b.sequence)

instance : DecidableRel eventLE := fun a b => by
  unfold eventLE; infer_instance

instance : IsTotal Event eventLE where
  total a b := by
    rcases lt_trichotomy a.scheduledTime b.scheduledTime with h | h | h
    · exact Or.inl (Or.inl h)
    · rcases Nat.le_total a.sequence b.sequence with hs | hs
      · exact Or.inl (Or.inr ⟨h, hs⟩)
      · exact Or.inr (Or.inr ⟨h.symm, hs⟩)
    · exact Or.inr (Or.inl h)

instance : IsTrans Event eventLE where
  trans a b c hab hbc := by
    rcases hab with hab | ⟨hab, hab'⟩ <;> rcases hbc with hbc | ⟨hbc, hbc'⟩
    · exact Or.inl (hab.trans hbc)
    · exact Or.inl (hbc ▸ hab)
    · exact Or.inl (hab ▸ hbc)
    · exact Or.inr ⟨hab.trans hbc, hab'.trans hbc'⟩

/-- Modelled from the spec: `schedule(time, action)` assigns each request a
fresh `sequence` from a monotonic counter; a whole batch of requests (time,
actionId) is numbered in submission order. -/
def scheduleAll (reqs : List (ℚ × ℕ)) : List Event :=
  reqs.enum.map fun p => { scheduledTime := p.2.1, sequence := p.1, actionId := p.2.2 }

/-- Modelled from the spec: `runUntil(stopTime)` drains the events with
`scheduledTime ≤ stopTime` in (time, sequence) priority order; the returned
list is the dispatch sequence. -/
def runUntil (events : List Event) (stopTime : ℚ) : List Event :=
  List.insertionSort eventLE (events.filter fun e => e.scheduledTime ≤ stopTime)

/-! ## Medium -/

/-- Modelled from the spec: configuration consumed by Medium/NodeQueue at
construction, all fixed for the run's duration. -/
structure MediumConfig where
  propagationDelay : ℚ
  bitRate : ℚ
  collisionWindow : ℚ
  queueCapacity : ℕ
deriving DecidableEq, Repr

/-- Modelled from the spec: `MediumState` is the channel-free time. -/
structure MediumState where
  busyUntil : ℚ
deriving DecidableEq, Repr

/-- Modelled from the spec: outcome of a send attempt on the shared medium. -/
inductive Outcome where
  | Success (arrivalTime : ℚ)
  | Collision
  | Deferred (retryAfter : ℚ)
deriving DecidableEq, Repr

/-- Modelled from the spec: `transmissionTime = sizeBytes*8/bitRate`. -/
def transmissionTime (sizeBytes : ℕ) (bitRate : ℚ) : ℚ :=
  (sizeBytes : ℚ) * 8 / bitRate

/-- Modelled from the spec: `attemptSend` policy — if `now ≥ busyUntil`,
success with `arrivalTime = now + propagationDelay + transmissionTime`, setting
`busyUntil = now + transmissionTime`; otherwise the sender is deferred until
`busyUntil`. -/
def attemptSend (cfg : MediumConfig) (m : MediumState) (sizeBytes : ℕ) (now : ℚ) :
    Outcome × MediumState :=
  if m.busyUntil ≤ now then
    (Outcome.Success (now + cfg.propagationDelay + transmissionTime sizeBytes cfg.bitRate),
     { busyUntil := now + transmissionTime sizeBytes cfg.bitRate })
  else
    (Outcome.Deferred m.busyUntil, m)

/-- Modelled from the spec: quantization for collision detection — timestamps
are reduced to multiples of the collision window; a window of 0 leaves times
unquantized. -/
def quantize (w t : ℚ) : ℚ :=
  if w ≤ 0 then t else w * ⌊t / w⌋

/-- Modelled from the spec: one send attempt submitted to the medium. -/
structure Attempt where
  nodeId : ℕ
  sizeBytes : ℕ
  time : ℚ
deriving DecidableEq, Repr

def dummyAttempt : Attempt := { nodeId := 0, sizeBytes := 0, time := 0 }

/-- Modelled from the spec: attempt `k` of a batch collides when the collision
window is positive and some other attempt of the batch falls in the same
quantized time slot. -/
def collidesAt (w : ℚ) (attempts : List Attempt) (k : ℕ) : Bool :=
  decide (0 < w) &&
    (List.range attempts.length).any fun j =>
      decide (j ≠ k) &&
        decide (quantize w (attempts.getD j dummyAttempt).time =
                quantize w (attempts.getD k dummyAttempt).time)

/-- Modelled from the spec: outcome of each attempt of a batch — `Collision`
for every attempt sharing a quantized time slot with another one (neither
arrives), the plain `attemptSend` outcome otherwise. -/
def mediumOutcomes (cfg : MediumConfig) (m : MediumState) (attempts : List Attempt) :
    List Outcome :=
  (List.range attempts.length).map fun k =>
    if collidesAt cfg.collisionWindow attempts k then Outcome.Collision
    else (attemptSend cfg m (attempts.getD k dummyAttempt).sizeBytes
            (attempts.getD k dummyAttempt).time).1

/-! ## NodeQueue -/

/-- Modelled from the spec: the kernel's `Packet` record. -/
structure Packet where
  id : ℕ
  sizeBytes : ℕ
  sourceNodeId : ℕ
  destNodeId : ℕ
  enqueueTime : ℚ
deriving DecidableEq, Repr

/-- Modelled from the spec: `NodeQueueState` — per-node outbound queue with
bounded capacity and drop accounting. -/
structure NodeQueueState where
  nodeId : ℕ
  pending : List Packet
  capacity : ℕ
  droppedCount : ℕ
deriving DecidableEq, Repr

/-- Modelled from the spec: `enqueue(packet)` appends if
`len(pending) < capacity`; otherwise fails (`QueueFullError`) and increments
`droppedCount`. -/
def enqueue (q : NodeQueueState) (p : Packet) : Bool × NodeQueueState :=
  if q.pending.length < q.capacity then
    (true, { q with pending := q.pending ++ [p] })
  else
    (false, { q with droppedCount := q.droppedCount + 1 })

/-- Modelled from the spec: `dequeue()` — FIFO pop, nothing if empty. -/
def dequeue (q : NodeQueueState) : Option Packet × NodeQueueState :=
  match q.pending with
  | [] => (none, q)
  | p :: rest => (some p, { q with pending := rest })

/-! ## Scenario embedding: send scheduling (src/V2X-Main.cc lines 49-55 and 219-234) -/

/-- The observable effect of one `SendPacket` call: which socket sent, to which
destination address and port, which vehicle id was reported, and the payload
size of the single packet created. -/
structure SendRecord where
  sockIdx : ℕ
  dst : ℕ
  port : ℕ
  vehId : ℕ
  payloadBytes : ℕ
deriving DecidableEq, Repr

/-- `SendPacket(socket, dst, port, vehId)`: creates one 100-byte packet and
sends it to `(dst, port)` on the given socket. -/
def SendPacket (sockIdx dst port vehId : ℕ) : SendRecord :=
  { sockIdx := sockIdx, dst := dst, port := port, vehId := vehId, payloadBytes := 100 }

/-- The values captured by copy in each scheduled lambda
(`[sock = vehicleSockets[i], rsuAddr, port, vehId]` — an init-capture copy of
the socket handle and implicit by-value captures of the rest). -/
structure SendClosure where
  sock : ℕ
  rsuAddr : ℕ
  port : ℕ
  vehId : ℕ
deriving DecidableEq, Repr

/-- One `Simulator::Schedule` call of the scheduling loop: a time and the
closure scheduled at it. -/
structure ScheduledEvent where
  time : ℚ
  closure : SendClosure
deriving DecidableEq, Repr

/-- The mutable variables of the scheduling loop (and of `main`) that exist at
the time a closure later runs; a by-value closure must not read them. -/
structure LoopVars where
  i : ℕ
  rsuAddr : ℕ
  vehId : ℕ
  tsend : ℚ
deriving DecidableEq, Repr

/-- Running a scheduled closure performs `SendPacket` on the captured copies
only; the ambient loop variables at execution time are not consulted. -/
def execClosure (c : SendClosure) (_ambient : LoopVars) : SendRecord :=
  SendPacket c.sock c.rsuAddr c.port c.vehId

/-- The first scheduled send of vehicle `i`: at `tsend = sendStart + i` with
`sendStart = 1.0`. -/
def sendEvt1 (rsuIp i : ℕ) : ScheduledEvent :=
  { time := 1 + (i : ℚ),
    closure := { sock := i, rsuAddr := rsuIp, port := 5000, vehId := i + 1 } }

/-- The second scheduled send of vehicle `i`: at `tsend + 1.0`. -/
def sendEvt2 (rsuIp i : ℕ) : ScheduledEvent :=
  { time := (1 + (i : ℚ)) + 1,
    closure := { sock := i, rsuAddr := rsuIp, port := 5000, vehId := i + 1 } }

/-- The scheduling loop of `main`: for each vehicle `i` below `nVehicles`, two
`Simulator::Schedule` calls at `tsend` and `tsend + 1.0`. -/
def scheduleSends (nVehicles rsuIp : ℕ) : List ScheduledEvent :=
  (List.range nVehicles).flatMap fun i => [sendEvt1 rsuIp i, sendEvt2 rsuIp i]

def dummyEvt : ScheduledEvent :=
  { time := 0, closure := { sock := 0, rsuAddr := 0, port := 0, vehId := 0 } }

/-! ## Scenario embedding: ARP pre-population (src/V2X-Main.cc lines 144-166) -/

/-- One ARP cache entry: destination IPv4 address, MAC address, and whether
the entry was marked permanent. -/
structure ArpEntry where
  ip : ℕ
  mac : ℕ
  permanent : Bool
deriving DecidableEq, Repr

/-- An ARP cache: its alive timeout (seconds) and its entries. -/
structure ArpCacheState where
  aliveTimeout : ℚ
  entries : List ArpEntry
deriving DecidableEq, Repr

/-- One IPv4 interface of a node: its index and the ARP cache set on it. -/
structure Ipv4Interface where
  ifaceIndex : ℕ
  arpCache : Option ArpCacheState
deriving DecidableEq, Repr

/-- A node's IPv4 state: its list of interfaces. -/
structure NodeState where
  interfaces : List Ipv4Interface
deriving DecidableEq, Repr

def dummyNode : NodeState := { interfaces := [] }

/-- The cache built for each vehicle: alive timeout 3600 s, one entry mapping
the RSU's IP to the RSU's MAC, marked permanent. -/
def vehicleArpCache (rsuIp rsuMac : ℕ) : ArpCacheState :=
  { aliveTimeout := 3600,
    entries := [{ ip := rsuIp, mac := rsuMac, permanent := true }] }

/-- The inner loop body: `iface->SetArpCache(arp)` on every interface of the
vehicle's `Ipv4L3Protocol`. -/
def prePopulateArpNode (rsuIp rsuMac : ℕ) (node : NodeState) : NodeState :=
  { interfaces := node.interfaces.map fun ifc =>
      { ifc with arpCache := some (vehicleArpCache rsuIp rsuMac) } }

/-- The ARP pre-population loop over all vehicle nodes. -/
def prePopulateArp (rsuIp rsuMac : ℕ) (vehicles : List NodeState) : List NodeState :=
  vehicles.map (prePopulateArpNode rsuIp rsuMac)

/-! ## Scenario embedding: QueueDisc installation (src/V2X-Main.cc lines 168-206) -/

/-- A net device as seen by the traffic-control setup: its index and the root
queue disc currently on it (`none` when the node has no `TrafficControlLayer`
or `GetRootQueueDiscOnDevice` returns null). -/
structure TCDevice where
  devId : ℕ
  root : Option ℕ
deriving DecidableEq, Repr

/-- Handle standing for a freshly installed `ns3::PfifoFastQueueDisc` root. -/
def pfifoFastRoot : ℕ := 1

/-- The traffic-control setup: a device without a root queue disc is collected
into `devicesToInstall` and `tch.Install` puts a root on it; a device that
already has one is skipped.  Each result is paired with whether the setup
installed on that device. -/
def tcSetup (devs : List TCDevice) : List (TCDevice × Bool) :=
  devs.map fun d =>
    if d.root.isSome then (d, false)
    else ({ d with root := some pfifoFastRoot }, true)

def dummyTC : TCDevice := { devId := 0, root := none }

/-! ## Scenario embedding: FlowMonitor (src/V2X-Main.cc lines 79, 243-256) -/

/-- The flow-monitor file name used by `SerializeToXmlFile`. -/
def flowmonXmlFile : String := "v2x-sim-final-flowmon.xml"

/-- What the run produces with respect to FlowMonitor. -/
structure FlowMonitorOutcome where
  installed : Bool
  xmlFiles : List String
deriving DecidableEq, Repr

/-- The FlowMonitor logic of `main`: `InstallAll` only when
`enableFlowMonitor`; after `Simulator::Run`, serialization only when
`enableFlowMonitor && flowMonitor`. -/
def flowMonitorRun (enableFlowMonitor : Bool) : FlowMonitorOutcome :=
  let flowMonitor : Option ℕ := if enableFlowMonitor then some 0 else none
  { installed := flowMonitor.isSome,
    xmlFiles :=
      if enableFlowMonitor && flowMonitor.isSome then [flowmonXmlFile] else [] }

/-! ## Scenario embedding: the RSU receive callback (src/V2X-Main.cc lines 36-47) -/

/-- A packet waiting in a UDP socket's receive buffer: its size and sender. -/
structure RecvPacketMsg where
  sizeBytes : ℕ
  fromIp : ℕ
deriving DecidableEq, Repr

/-- A socket's receive-side state: the pending packets, FIFO. -/
structure UdpSocket where
  pending : List RecvPacketMsg
deriving DecidableEq, Repr

/-- One line printed by `ReceivePacket`: current time, byte count, sender. -/
structure LogLine where
  timeSec : ℚ
  sizeBytes : ℕ
  fromIp : ℕ
deriving DecidableEq, Repr

/-- `socket->RecvFrom(from)`: pops the oldest pending packet, or returns null
when the buffer is empty. -/
def RecvFrom (s : UdpSocket) : Option RecvPacketMsg × UdpSocket :=
  match s.pending with
  | [] => (none, s)
  | p :: rest => (some p, { pending := rest })

/-- The `while ((packet = socket->RecvFrom(from)))` loop body iterated until
`RecvFrom` returns null: one log line per popped packet. -/
def receiveLoop (now : ℚ) : List RecvPacketMsg → List LogLine × List RecvPacketMsg
  | [] => ([], [])
  | p :: rest =>
    let r := receiveLoop now rest
    ({ timeSec := now, sizeBytes := p.sizeBytes, fromIp := p.fromIp } :: r.1, r.2)

/-- `ReceivePacket(socket)`: drains the socket via the `RecvFrom` loop,
returning the printed log lines and the socket's final state. -/
def ReceivePacket (now : ℚ) (s : UdpSocket) : List LogLine × UdpSocket :=
  let r := receiveLoop now s.pending
  (r.1, { pending := r.2 })

/-! ## Concrete scenario constants and dummies used by witnesses -/

/-- The end-to-end scenario configuration: `queueCapacity = 10`,
`bitRate = 6,000,000 bps` (OfdmRate6Mbps), `propagationDelay = 0`,
`collisionWindow = 0`. -/
def endToEndCfg : MediumConfig :=
  { propagationDelay := 0, bitRate := 6000000, collisionWindow := 0, queueCapacity := 10 }

def dummyOutcome : Outcome := Outcome.Deferred 0

/-! ## Theorems -/

/-- Claim C1: with `bitRate = 6,000,000` and `propagationDelay = 0`, a
100-byte packet handed to the Medium at `t = 1.0 s` is delivered with arrival
time `1.0 + (100*8)/6e6`; in general `transmissionTime = sizeBytes*8/bitRate`
for every size and positive bit rate, and a free medium always returns
`Success (now + propagationDelay + sizeBytes*8/bitRate)`. -/
theorem claim_C1 :
    (attemptSend endToEndCfg { busyUntil := 0 } 100 1).1 =
      Outcome.Success (1 + (100 * 8) / 6000000)
    ∧ (∀ (sz : ℕ) (br : ℚ), 0 < br → transmissionTime sz br = (sz : ℚ) * 8 / br)
    ∧ (∀ (cfg : MediumConfig) (m : MediumState) (sz : ℕ) (now : ℚ),
        m.busyUntil ≤ now →
        (attemptSend cfg m sz now).1 =
          Outcome.Success (now + cfg.propagationDelay + (sz : ℚ) * 8 / cfg.bitRate)) := by
  refine ⟨?_, fun sz br _ => rfl, fun cfg m sz now h => ?_⟩
  · simp only [attemptSend, endToEndCfg, transmissionTime]
    norm_num
  · simp [attemptSend, transmissionTime, h]

/-- Witness for C1 at size 100 bytes and bit rate 6 Mbps. -/
theorem claim_C1_witness :
    transmissionTime 100 6000000 = (100 : ℚ) * 8 / 6000000
    ∧ (attemptSend endToEndCfg { busyUntil := 0 } 100 1).1 =
        Outcome.Success (1 + endToEndCfg.propagationDelay + (100 : ℚ) * 8 / endToEndCfg.bitRate) :=
  ⟨claim_C1.2.1 100 6000000 (by norm_num),
   claim_C1.2.2 endToEndCfg { busyUntil := 0 } 100 1 (by norm_num [MediumState.busyUntil])⟩

/-- Claim C6: `enqueue` on a queue whose pending length equals its capacity
fails, leaves the pending sequence unchanged and increments `droppedCount` by
exactly 1; below capacity it appends the packet and returns true. -/
theorem claim_C6 (q : NodeQueueState) (p : Packet) :
    (q.pending.length = q.capacity →
      (enqueue q p).1 = false ∧ (enqueue q p).2.pending = q.pending ∧
      (enqueue q p).2.droppedCount = q.droppedCount + 1)
    ∧ (q.pending.length < q.capacity →
      (enqueue q p).1 = true ∧ (enqueue q p).2.pending = q.pending ++ [p] ∧
      (enqueue q p).2.droppedCount = q.droppedCount) := by
  constructor
  · intro h
    simp [enqueue, h]
  · intro h
    simp [enqueue, h]

def pktEx : Packet :=
  { id := 0, sizeBytes := 100, sourceNodeId := 0, destNodeId := 1, enqueueTime := 1 }

def qFull : NodeQueueState := { nodeId := 0, pending := [], capacity := 0, droppedCount := 0 }

def qRoom : NodeQueueState := { nodeId := 0, pending := [], capacity := 10, droppedCount := 0 }

/-- Witness for C6 on a full queue (capacity 0) and a queue with room. -/
theorem claim_C6_witness :
    ((enqueue qFull pktEx).1 = false ∧ (enqueue qFull pktEx).2.pending = qFull.pending ∧
      (enqueue qFull pktEx).2.droppedCount = qFull.droppedCount + 1)
    ∧ ((enqueue qRoom pktEx).1 = true ∧
        (enqueue qRoom pktEx).2.pending = qRoom.pending ++ [pktEx] ∧
        (enqueue qRoom pktEx).2.droppedCount = qRoom.droppedCount) :=
  ⟨(claim_C6 qFull pktEx).1 (by decide), (claim_C6 qRoom pktEx).2 (by decide)⟩

/-- Claim C9: the flow-monitor XML file is produced by the run if and only if
`enableFlowMonitor` is true, and a FlowMonitor is installed exactly when the
flag is true. -/
theorem claim_C9 (b : Bool) :
    (flowmonXmlFile ∈ (flowMonitorRun b).xmlFiles ↔ b = true)
    ∧ (flowMonitorRun b).installed = b := by
  cases b <;> simp [flowMonitorRun]

/-- Witness for C9 at both flag values. -/
theorem claim_C9_witness :
    flowmonXmlFile ∈ (flowMonitorRun true).xmlFiles
    ∧ (flowMonitorRun false).installed = false :=
  ⟨(claim_C9 true).1.mpr rfl, (claim_C9 false).2⟩

theorem receiveLoop_eq (now : ℚ) (l : List RecvPacketMsg) :
    receiveLoop now l =
      (l.map fun p => { timeSec := now, sizeBytes := p.sizeBytes, fromIp := p.fromIp }, []) := by
  induction l with
  | nil => rfl
  | cons p rest ih => simp [receiveLoop, ih]

/-- Claim C10: `ReceivePacket` drains the socket completely — afterwards no
packet is pending, and it logs exactly one line (time, byte count, sender) per
packet that was pending. -/
theorem claim_C10 (now : ℚ) (s : UdpSocket) :
    (ReceivePacket now s).2.pending = []
    ∧ (ReceivePacket now s).1 =
        s.pending.map fun p => { timeSec := now, sizeBytes := p.sizeBytes, fromIp := p.fromIp } := by
  simp [ReceivePacket, receiveLoop_eq]

/-- Claim C4: after the ARP pre-population loop, every IPv4 interface of every
vehicle node carries an ARP cache with a 3600-second alive timeout containing a
permanent entry mapping the RSU's IPv4 address to the RSU's MAC address. -/
theorem claim_C4 (rsuIp rsuMac : ℕ) (vehicles : List NodeState) (i : ℕ)
    (hi : i < vehicles.length) (ifc : Ipv4Interface)
    (hm : ifc ∈ ((prePopulateArp rsuIp rsuMac vehicles).getD i dummyNode).interfaces) :
    ∃ c, ifc.arpCache = some c ∧ c.aliveTimeout = 3600 ∧
      ({ ip := rsuIp, mac := rsuMac, permanent := true } : ArpEntry) ∈ c.entries := by
  have hlen : i < (prePopulateArp rsuIp rsuMac vehicles).length := by
    simpa [prePopulateArp] using hi
  rw [List.getD_eq_getElem _ _ hlen] at hm
  simp only [prePopulateArp, List.getElem_map, prePopulateArpNode, List.mem_map] at hm
  obtain ⟨x, -, rfl⟩ := hm
  exact ⟨vehicleArpCache rsuIp rsuMac, rfl, rfl, by simp [vehicleArpCache]⟩

def vehiclesEx : List NodeState :=
  [{ interfaces := [{ ifaceIndex := 0, arpCache := none }] }]

/-- Witness for C4 on a single vehicle with a single interface. -/
theorem claim_C4_witness :
    ∃ c, (Ipv4Interface.arpCache
        { ifaceIndex := 0, arpCache := some (vehicleArpCache 10 99) }) = some c ∧
      c.aliveTimeout = 3600 ∧
      ({ ip := 10, mac := 99, permanent := true } : ArpEntry) ∈ c.entries :=
  claim_C4 10 99 vehiclesEx 0 (by decide)
    { ifaceIndex := 0, arpCache := some (vehicleArpCache 10 99) }
    (by simp [prePopulateArp, prePopulateArpNode, vehiclesEx])

/-- Claim C8: the traffic-control setup installs a root queue disc on a device
if and only if the device has none; afterwards every device carries a root
queue disc, and a device that already had one is left untouched. -/
theorem claim_C8 (devs : List TCDevice) (k : ℕ) (hk : k < devs.length) :
    (((tcSetup devs).getD k (dummyTC, false)).2 = true ↔ (devs.getD k dummyTC).root = none)
    ∧ ((tcSetup devs).getD k (dummyTC, false)).1.root.isSome = true
    ∧ ((devs.getD k dummyTC).root.isSome = true →
        ((tcSetup devs).getD k (dummyTC, false)).1 = devs.getD k dummyTC) := by
  have hlen : k < (tcSetup devs).length := by simpa [tcSetup] using hk
  rw [List.getD_eq_getElem _ _ hlen, List.getD_eq_getElem _ _ hk]
  simp only [tcSetup, List.getElem_map]
  cases h : devs[k].root with
  | none => simp [h]
  | some q => simp [h]

def tcDevsEx : List TCDevice := [{ devId := 0, root := none }, { devId := 1, root := some 7 }]

/-- Witness for C8 on one bare device and one device that already has a root
queue disc. -/
theorem claim_C8_witness :
    (((tcSetup tcDevsEx).getD 0 (dummyTC, false)).2 = true ↔
      (tcDevsEx.getD 0 dummyTC).root = none)
    ∧ ((tcSetup tcDevsEx).getD 0 (dummyTC, false)).1.root.isSome = true
    ∧ ((tcSetup tcDevsEx).getD 1 (dummyTC, false)).1 = tcDevsEx.getD 1 dummyTC :=
  ⟨(claim_C8 tcDevsEx 0 (by decide)).1,
   (claim_C8 tcDevsEx 0 (by decide)).2.1,
   (claim_C8 tcDevsEx 1 (by decide)).2.2 (by decide)⟩

theorem scheduleSends_succ (n rsuIp : ℕ) :
    scheduleSends (n + 1) rsuIp =
      scheduleSends n rsuIp ++ [sendEvt1 rsuIp n, sendEvt2 rsuIp n] := by
  simp [scheduleSends, List.range_succ]

theorem scheduleSends_length (n rsuIp : ℕ) : (scheduleSends n rsuIp).length = 2 * n := by
  induction n with
  | zero => rfl
  | succ n ih =>
    rw [scheduleSends_succ, List.length_append, ih]
    simp
    omega

theorem scheduleSends_getElem (n rsuIp i : ℕ) (hi : i < n) :
    (scheduleSends n rsuIp)[2 * i]? = some (sendEvt1 rsuIp i) ∧
    (scheduleSends n rsuIp)[2 * i + 1]? = some (sendEvt2 rsuIp i) := by
  induction n with
  | zero => omega
  | succ n ih =>
    rw [scheduleSends_succ]
    by_cases h : i < n
    · have h1 : 2 * i < (scheduleSends n rsuIp).length := by rw [scheduleSends_length]; omega
      have h2 : 2 * i + 1 < (scheduleSends n rsuIp).length := by rw [scheduleSends_length]; omega
      rw [List.getElem?_append_left h1, List.getElem?_append_left h2]
      exact ih h
    · have hin : i = n := by omega
      subst hin
      have hL : (scheduleSends i rsuIp).length = 2 * i := scheduleSends_length i rsuIp
      rw [List.getElem?_append_right (by omega), List.getElem?_append_right (by omega), hL]
      simp

theorem scheduleSends_filter (n rsuIp i : ℕ) :
    (scheduleSends n rsuIp).filter (fun e => e.closure.sock == i) =
      if i < n then [sendEvt1 rsuIp i, sendEvt2 rsuIp i] else [] := by
  induction n with
  | zero => simp [scheduleSends]
  | succ n ih =>
    rw [scheduleSends_succ, List.filter_append, ih]
    by_cases h : i < n
    · have hne : ¬((n : ℕ) == i) = true := by simp; omega
      simp [h, show i < n + 1 by omega, List.filter_cons, sendEvt1, sendEvt2, hne]
    · by_cases h2 : i = n
      · subst h2
        simp [h, List.filter_cons, sendEvt1, sendEvt2]
      · have hlt : ¬i < n + 1 := by omega
        have hne : ¬((n : ℕ) == i) = true := by simp; omega
        simp [h, hlt, List.filter_cons, sendEvt1, sendEvt2, hne]

/-- Claim C2: for every vehicle `i < nVehicles` the program schedules exactly
two sends, at `1.0 + i` and `2.0 + i` seconds, each sending one 100-byte
packet to the RSU's address at port 5000; the first send of vehicle 0 is at
`t = 1.0 s`. -/
theorem claim_C2 (n rsuIp i : ℕ) (hi : i < n) :
    (scheduleSends n rsuIp).filter (fun e => e.closure.sock == i) =
      [{ time := 1 + (i : ℚ),
         closure := { sock := i, rsuAddr := rsuIp, port := 5000, vehId := i + 1 } },
       { time := 2 + (i : ℚ),
         closure := { sock := i, rsuAddr := rsuIp, port := 5000, vehId := i + 1 } }]
    ∧ (∀ e ∈ scheduleSends n rsuIp,
        SendPacket e.closure.sock e.closure.rsuAddr e.closure.port e.closure.vehId =
          { sockIdx := e.closure.sock, dst := rsuIp, port := 5000,
            vehId := e.closure.sock + 1, payloadBytes := 100 })
    ∧ (0 < n → (scheduleSends n rsuIp).head? =
        some { time := 1,
               closure := { sock := 0, rsuAddr := rsuIp, port := 5000, vehId := 1 } }) := by
  refine ⟨?_, ?_, ?_⟩
  · have h2 : sendEvt2 rsuIp i =
        { time := 2 + (i : ℚ),
          closure := { sock := i, rsuAddr := rsuIp, port := 5000, vehId := i + 1 } } := by
      simp only [sendEvt2, ScheduledEvent.mk.injEq]
      exact ⟨by ring, by simp⟩
    rw [scheduleSends_filter, if_pos hi, h2]
    rfl
  · intro e he
    simp only [scheduleSends, List.mem_flatMap, List.mem_cons,
      List.mem_singleton] at he
    obtain ⟨j, -, hj⟩ := he
    rcases hj with rfl | rfl | hj
    · rfl
    · rfl
    · exact absurd hj (List.not_mem_nil e)
  · intro hn
    have h := (scheduleSends_getElem n rsuIp 0 hn).1
    rw [List.head?_eq_getElem?]
    norm_num at h
    rw [h]
    simp only [sendEvt1, Option.some.injEq, ScheduledEvent.mk.injEq]
    exact ⟨by norm_num, by simp⟩

/-- Witness for C2 with two vehicles, RSU address 7, vehicle 0. -/
theorem claim_C2_witness :
    (scheduleSends 2 7).filter (fun e => e.closure.sock == 0) =
      [{ time := 1 + ((0 : ℕ) : ℚ),
         closure := { sock := 0, rsuAddr := 7, port := 5000, vehId := 0 + 1 } },
       { time := 2 + ((0 : ℕ) : ℚ),
         closure := { sock := 0, rsuAddr := 7, port := 5000, vehId := 0 + 1 } }]
    ∧ SendPacket (sendEvt2 7 1).closure.sock (sendEvt2 7 1).closure.rsuAddr
        (sendEvt2 7 1).closure.port (sendEvt2 7 1).closure.vehId =
        { sockIdx := (sendEvt2 7 1).closure.sock, dst := 7, port := 5000,
          vehId := (sendEvt2 7 1).closure.sock + 1, payloadBytes := 100 }
    ∧ (scheduleSends 2 7).head? =
        some { time := 1, closure := { sock := 0, rsuAddr := 7, port := 5000, vehId := 1 } } :=
  ⟨(claim_C2 2 7 0 (by norm_num)).1,
   (claim_C2 2 7 0 (by norm_num)).2.1 (sendEvt2 7 1)
     (by simp only [scheduleSends, List.mem_flatMap]
         exact ⟨1, by simp, by simp⟩),
   (claim_C2 2 7 0 (by norm_num)).2.2 (by norm_num)⟩

/-- Claim C7: every scheduled closure captures only copies of the socket
handle, the RSU address, the port and the vehicle id — executing it does not
read the ambient loop variables, so the destination, port and reported vehicle
id of each scheduled send are fixed at scheduling time. -/
theorem claim_C7 (n rsuIp i : ℕ) (hi : i < n) (v v' : LoopVars) :
    (∀ e ∈ scheduleSends n rsuIp, execClosure e.closure v = execClosure e.closure v')
    ∧ ((scheduleSends n rsuIp).getD (2 * i) dummyEvt).closure =
        { sock := i, rsuAddr := rsuIp, port := 5000, vehId := i + 1 }
    ∧ ((scheduleSends n rsuIp).getD (2 * i + 1) dummyEvt).closure =
        { sock := i, rsuAddr := rsuIp, port := 5000, vehId := i + 1 }
    ∧ execClosure ((scheduleSends n rsuIp).getD (2 * i) dummyEvt).closure v =
        { sockIdx := i, dst := rsuIp, port := 5000, vehId := i + 1, payloadBytes := 100 } := by
  have g1 : (scheduleSends n rsuIp).getD (2 * i) dummyEvt = sendEvt1 rsuIp i := by
    rw [List.getD_eq_getElem?_getD, (scheduleSends_getElem n rsuIp i hi).1]
    rfl
  have g2 : (scheduleSends n rsuIp).getD (2 * i + 1) dummyEvt = sendEvt2 rsuIp i := by
    rw [List.getD_eq_getElem?_getD, (scheduleSends_getElem n rsuIp i hi).2]
    rfl
  exact ⟨fun e _ => rfl, by rw [g1]; rfl, by rw [g2]; rfl, by rw [g1]; rfl⟩

/-- Witness for C7 with one vehicle and two distinct ambient variable
states. -/
theorem claim_C7_witness :
    execClosure (sendEvt1 3 0).closure { i := 9, rsuAddr := 9, vehId := 9, tsend := 9 } =
      execClosure (sendEvt1 3 0).closure { i := 0, rsuAddr := 0, vehId := 0, tsend := 0 }
    ∧ ((scheduleSends 1 3).getD (2 * 0) dummyEvt).closure =
        { sock := 0, rsuAddr := 3, port := 5000, vehId := 0 + 1 }
    ∧ execClosure ((scheduleSends 1 3).getD (2 * 0) dummyEvt).closure
        { i := 9, rsuAddr := 9, vehId := 9, tsend := 9 } =
        { sockIdx := 0, dst := 3, port := 5000, vehId := 0 + 1, payloadBytes := 100 } :=
  ⟨(claim_C7 1 3 0 (by norm_num) { i := 9, rsuAddr := 9, vehId := 9, tsend := 9 }
      { i := 0, rsuAddr := 0, vehId := 0, tsend := 0 }).1 (sendEvt1 3 0)
      (by simp [scheduleSends]),
   (claim_C7 1 3 0 (by norm_num) { i := 9, rsuAddr := 9, vehId := 9, tsend := 9 }
      { i := 0, rsuAddr := 0, vehId := 0, tsend := 0 }).2.1,
   (claim_C7 1 3 0 (by norm_num) { i := 9, rsuAddr := 9, vehId := 9, tsend := 9 }
      { i := 0, rsuAddr := 0, vehId := 0, tsend := 0 }).2.2.2⟩

theorem scheduleAll_map_sequence (reqs : List (ℚ × ℕ)) :
    (scheduleAll reqs).map Event.sequence = reqs.enum.map Prod.fst := by
  rw [scheduleAll, List.map_map]
  rfl

/-- Claim C3: `runUntil` dispatches exactly the scheduled events with
`scheduledTime ≤ stopTime`, in non-decreasing `scheduledTime` order, and
among equal timestamps in original scheduling (sequence) order; being a pure
function of the scheduled batch, an identical input replays identically. -/
theorem claim_C3 (reqs : List (ℚ × ℕ)) (stopTime : ℚ) :
    (runUntil (scheduleAll reqs) stopTime).Pairwise
      (fun a b => a.scheduledTime ≤ b.scheduledTime ∧
        (a.scheduledTime = b.scheduledTime → a.sequence < b.sequence))
    ∧ (runUntil (scheduleAll reqs) stopTime).Perm
        ((scheduleAll reqs).filter fun e => e.scheduledTime ≤ stopTime) := by
  have hperm : (runUntil (scheduleAll reqs) stopTime).Perm
      ((scheduleAll reqs).filter fun e => e.scheduledTime ≤ stopTime) :=
    List.perm_insertionSort eventLE _
  have hsorted : List.Sorted eventLE (runUntil (scheduleAll reqs) stopTime) :=
    List.sorted_insertionSort eventLE _
  have hnodupAll : ((scheduleAll reqs).map Event.sequence).Nodup := by
    rw [scheduleAll_map_sequence]
    exact List.nodup_enum_map_fst reqs
  have hnodupFilter :
      (((scheduleAll reqs).filter fun e => e.scheduledTime ≤ stopTime).map
        Event.sequence).Nodup :=
    List.Nodup.sublist ((List.filter_sublist _).map Event.sequence) hnodupAll
  have hnodupOut : ((runUntil (scheduleAll reqs) stopTime).map Event.sequence).Nodup :=
    ((hperm.map Event.sequence).nodup_iff).mpr hnodupFilter
  have hne : (runUntil (scheduleAll reqs) stopTime).Pairwise
      (fun a b => a.sequence ≠ b.sequence) :=
    (List.pairwise_map).mp hnodupOut
  refine ⟨(List.Pairwise.and hsorted hne).imp ?_, hperm⟩
  rintro a b ⟨hab, hseq⟩
  refine ⟨?_, ?_⟩
  · rcases hab with h | ⟨h, -⟩
    · exact le_of_lt h
    · exact le_of_eq h
  · intro heq
    rcases hab with h | ⟨-, h⟩
    · exact absurd heq (ne_of_lt h)
    · exact lt_of_le_of_ne h hseq

theorem mediumOutcomes_length (cfg : MediumConfig) (m : MediumState)
    (attempts : List Attempt) :
    (mediumOutcomes cfg m attempts).length = attempts.length := by
  simp [mediumOutcomes]

theorem mediumOutcomes_collision (cfg : MediumConfig) (m : MediumState)
    (attempts : List Attempt) (i j : ℕ) (hi : i < attempts.length)
    (hj : j < attempts.length) (hne : i ≠ j)
    (hq : quantize cfg.collisionWindow (attempts.getD i dummyAttempt).time =
      quantize cfg.collisionWindow (attempts.getD j dummyAttempt).time)
    (hw : 0 < cfg.collisionWindow) :
    (mediumOutcomes cfg m attempts).getD i dummyOutcome = Outcome.Collision := by
  have hlen : i < (mediumOutcomes cfg m attempts).length := by
    rw [mediumOutcomes_length]
    exact hi
  rw [List.getD_eq_getElem _ _ hlen]
  have hcol : collidesAt cfg.collisionWindow attempts i = true := by
    unfold collidesAt
    rw [Bool.and_eq_true]
    refine ⟨by simpa using hw, ?_⟩
    rw [List.any_eq_true]
    refine ⟨j, List.mem_range.mpr hj, ?_⟩
    rw [Bool.and_eq_true]
    exact ⟨by simpa using Ne.symm hne, by simpa using hq.symm⟩
  simp only [mediumOutcomes, List.getElem_map, List.getElem_range, hcol]
  simp

/-- Claim C5: two sends attempted at identical quantized time with
`collisionWindow > 0` always produce a `Collision` outcome for both
attempters; with `collisionWindow = 0` no attempt ever results in
`Collision`. -/
theorem claim_C5 (cfg : MediumConfig) (m : MediumState) (attempts : List Attempt) :
    (∀ i j, i < attempts.length → j < attempts.length → i ≠ j →
      quantize cfg.collisionWindow (attempts.getD i dummyAttempt).time =
        quantize cfg.collisionWindow (attempts.getD j dummyAttempt).time →
      0 < cfg.collisionWindow →
      (mediumOutcomes cfg m attempts).getD i dummyOutcome = Outcome.Collision ∧
      (mediumOutcomes cfg m attempts).getD j dummyOutcome = Outcome.Collision)
    ∧ (cfg.collisionWindow = 0 →
        ∀ k, (mediumOutcomes cfg m attempts).getD k dummyOutcome ≠ Outcome.Collision) := by
  constructor
  · intro i j hi hj hne hq hw
    exact ⟨mediumOutcomes_collision cfg m attempts i j hi hj hne hq hw,
           mediumOutcomes_collision cfg m attempts j i hj hi (Ne.symm hne) hq.symm hw⟩
  · intro hw k
    by_cases hk : k < (mediumOutcomes cfg m attempts).length
    · rw [List.getD_eq_getElem _ _ hk]
      have hcol : collidesAt cfg.collisionWindow attempts k = false := by
        unfold collidesAt
        rw [hw]
        simp
      simp only [mediumOutcomes, List.getElem_map, List.getElem_range, hcol]
      simp only [Bool.false_eq_true, if_false]
      unfold attemptSend
      split <;> simp
    · rw [List.getD_eq_getElem?_getD, List.getElem?_eq_none (le_of_not_lt hk)]
      simp [dummyOutcome]

def cfgColl : MediumConfig :=
  { propagationDelay := 0, bitRate := 6000000, collisionWindow := 1, queueCapacity := 10 }

def m0 : MediumState := { busyUntil := 0 }

def attempts2 : List Attempt :=
  [{ nodeId := 0, sizeBytes := 100, time := 5 },
   { nodeId := 1, sizeBytes := 100, time := 5 }]

/-- Witness for C5: two attempts at `t = 5` with window 1 both collide; with
window 0 (the `endToEndCfg`) no attempt collides. -/
theorem claim_C5_witness :
    ((mediumOutcomes cfgColl m0 attempts2).getD 0 dummyOutcome = Outcome.Collision ∧
     (mediumOutcomes cfgColl m0 attempts2).getD 1 dummyOutcome = Outcome.Collision)
    ∧ (mediumOutcomes endToEndCfg m0 attempts2).getD 0 dummyOutcome ≠ Outcome.Collision :=
  ⟨(claim_C5 cfgColl m0 attempts2).1 0 1 (by decide) (by decide) (by decide) rfl
      (by norm_num [cfgColl]),
   (claim_C5 endToEndCfg m0 attempts2).2 rfl 0⟩

end V2X
